import Mathlib

set_option maxRecDepth 10000

/- The kernel evaluates rational arithmetic in the concrete runs below;
these core operations are sealed by default only as an elaboration
optimization. -/
attribute [local semireducible] Rat.add Rat.sub Rat.mul Rat.inv

/-!
Shallow embedding of the behavioral core of `src/complete_monitor.py`
(class `CompleteBehaviorMonitor`) of the BehaviorLens repository.

Modelling conventions:
* Wall-clock instants (`time.time()` floats) and classifier probabilities are
  embedded as rationals (`ℚ`).  Within one call of `process_frame` the Python
  code reads `time.time()` several times; those reads happen microseconds
  apart, and the embedding uses a single per-frame instant `now` carried in
  the frame signals, matching the specification's caller-supplied-timestamp
  model.
* The perception collaborators (YOLO pose, fall model, violence model and its
  rolling buffer) are external black boxes: their per-frame outputs
  (subject present flag, keypoints, bounding-box center x, fall probability,
  violence probability) are inputs to the embedded engine, exactly the
  `FrameSignals` bundle of the specification.
* `np.linalg.norm(kp - last_position) > 5` is embedded as
  `25 < sumSqDiff kp last_position`: the Euclidean norm exceeds 5 iff the sum
  of squared coordinate differences exceeds 25, which keeps the test inside ℚ.
* Python dicts keyed by strings (`self.stats`, `self.last_alert_time`) are
  embedded as association lists with Python's lookup/update semantics.
* `zone_start = int(w * 0.66)` is embedded as `(w * 66) / 100` in ℕ
  (truncating division), the exact-arithmetic reading of that truncation.
* Side effects that leave the engine state untouched (printing, sound,
  drawing) are abstracted into the returned `FrameReport`, which records,
  per alert kind, whether `send_alert` was called this frame (`...Trigger`)
  and whether it actually dispatched, i.e. passed the cooldown and ran its
  body (`...Dispatched`).
-/

namespace BehaviorLens

/-- Python `d.get(key, default)` on a `dict` of rational values,
embedded over an association list. -/
def dictGetQ : List (String × ℚ) → String → ℚ → ℚ
  | [], _, dflt => dflt
  | (k, v) :: rest, key, dflt => if k = key then v else dictGetQ rest key dflt

/-- Python `d[key] = v` on a `dict` of rational values: update the existing
entry in place, or append a new binding. -/
def dictSetQ : List (String × ℚ) → String → ℚ → List (String × ℚ)
  | [], key, v => [(key, v)]
  | (k, w) :: rest, key, v =>
    if k = key then (k, v) :: rest else (k, w) :: dictSetQ rest key v

/-- Python `key in d` on a `dict` embedded as an association list. -/
def dictMem : List (String × ℕ) → String → Bool
  | [], _ => false
  | (k, _) :: rest, key => if k = key then true else dictMem rest key

/-- Reading a statistics counter, `d[key]` (all reads in the source are of
keys that are present; a missing key yields 0 here). -/
def dictGetN : List (String × ℕ) → String → ℕ
  | [], _ => 0
  | (k, v) :: rest, key => if k = key then v else dictGetN rest key

/-- Python `d[key] += 1` on a statistics `dict`.  In the source every such
increment is on a key that is present; on a missing key Python would raise
`KeyError`, and this embedding leaves the dict unchanged (that branch is
unreachable in the modelled code paths). -/
def dictIncr : List (String × ℕ) → String → List (String × ℕ)
  | [], _ => []
  | (k, v) :: rest, key =>
    if k = key then (k, v + 1) :: rest else (k, v) :: dictIncr rest key

/-- The per-frame signal bundle consumed by `process_frame`: the frame
instant plus the perception collaborators' outputs for that frame. -/
structure FrameSignals where
  now : ℚ
  present : Bool
  kp : List (ℚ × ℚ)
  centerX : ℚ
  width : ℕ
  fallProb : ℚ
  violenceProb : ℚ
  deriving DecidableEq

/-- The mutable engine state of `CompleteBehaviorMonitor` (the fields of
`self` that the behavioral logic reads or writes). -/
structure Monitor where
  last_movement_time : ℚ
  last_position : Option (List (ℚ × ℚ))
  inactivity_alert_sent : Bool
  in_restroom_zone : Bool
  restroom_entry_time : Option ℚ
  last_alert_time : List (String × ℚ)
  fall_detections_count : ℕ
  violence_detections_count : ℕ
  stats : List (String × ℕ)
  deriving DecidableEq

/-- Observable alert events of one `process_frame` call: for each kind,
whether `send_alert` was called (`Trigger`) and whether it actually
dispatched, i.e. survived the cooldown check (`Dispatched`). -/
structure FrameReport where
  fallTrigger : Bool
  fallDispatched : Bool
  violenceTrigger : Bool
  violenceDispatched : Bool
  inactivityTrigger : Bool
  inactivityDispatched : Bool
  restroomTrigger : Bool
  restroomDispatched : Bool
  deriving DecidableEq

/-- The report of a frame on which no `send_alert` call happened. -/
def noReport : FrameReport :=
  ⟨false, false, false, false, false, false, false, false⟩

/-- `self.alert_cooldown = 10` (seconds). -/
def alert_cooldown : ℚ := 10

/-- `self.FALL_THRESHOLD = 0.95`. -/
def FALL_THRESHOLD : ℚ := 95 / 100

/-- `self.VIOLENCE_THRESHOLD = 0.90`. -/
def VIOLENCE_THRESHOLD : ℚ := 90 / 100

/-- `self.CONSECUTIVE_DETECTIONS_NEEDED = 5`. -/
def CONSECUTIVE_DETECTIONS_NEEDED : ℕ := 5

/-- `self.INACTIVITY_THRESHOLD = 15` (seconds). -/
def INACTIVITY_THRESHOLD : ℚ := 15

/-- `self.RESTROOM_THRESHOLD = 20` (seconds). -/
def RESTROOM_THRESHOLD : ℚ := 20

/-- `__init__`: the engine state as constructed, with `t0` the construction
instant (`self.last_movement_time = time.time()`). -/
def initMonitor (t0 : ℚ) : Monitor where
  last_movement_time := t0
  last_position := none
  inactivity_alert_sent := false
  in_restroom_zone := false
  restroom_entry_time := none
  last_alert_time := []
  fall_detections_count := 0
  violence_detections_count := 0
  stats := [("total_frames", 0), ("fall_detections", 0),
            ("violence_detections", 0), ("inactivity_alerts", 0),
            ("restroom_alerts", 0)]

/-- `send_alert(self, alert_type, message, confidence)` (lines 109–129).
The message and confidence only feed the console print, so they do not
appear here.  Returns the updated state and whether the alert actually
dispatched (the cooldown check did not suppress it).  Note the stats guard
tests membership of `alert_type` itself while the incremented key is
`alert_type ++ "_alerts"`, exactly as in the source. -/
def send_alert (m : Monitor) (alert_type : String) (now : ℚ) :
    Monitor × Bool :=
  if now - dictGetQ m.last_alert_time alert_type 0 < alert_cooldown then
    (m, false)
  else
    ({ m with
        last_alert_time := dictSetQ m.last_alert_time alert_type now,
        stats := if dictMem m.stats alert_type then
                   dictIncr m.stats (alert_type ++ "_alerts")
                 else m.stats },
     true)

/-- Squared Euclidean distance between two keypoint arrays
(`np.linalg.norm(kp - last_position) ** 2`). -/
def sumSqDiff : List (ℚ × ℚ) → List (ℚ × ℚ) → ℚ
  | [], _ => 0
  | _ :: _, [] => 0
  | (x1, y1) :: r1, (x2, y2) :: r2 =>
    (x1 - x2) ^ 2 + (y1 - y2) ^ 2 + sumSqDiff r1 r2

/-- Movement tracking block of `process_frame` (lines 180–185): compare to
the previous recorded position when one exists (`movement > 5` is tested as
squared distance `> 25`), then record the current keypoints. -/
def movement_step (m : Monitor) (f : FrameSignals) : Monitor :=
  let m1 :=
    match m.last_position with
    | some prev =>
      if 25 < sumSqDiff f.kp prev then
        { m with last_movement_time := f.now, inactivity_alert_sent := false }
      else m
    | none => m
  { m1 with last_position := some f.kp }

/-- Fall detection block of `process_frame` (lines 190–204): consecutive
frame confirmation, statistics, alert, counter reset.  Returns the new
state, whether `send_alert "fall"` was called, and whether it dispatched. -/
def fall_step (m : Monitor) (f : FrameSignals) : Monitor × Bool × Bool :=
  if FALL_THRESHOLD < f.fallProb then
    let c := m.fall_detections_count + 1
    if CONSECUTIVE_DETECTIONS_NEEDED ≤ c then
      let m1 := { m with stats := dictIncr m.stats "fall_detections" }
      let s := send_alert m1 "fall" f.now
      ({ s.1 with fall_detections_count := 0 }, true, s.2)
    else
      ({ m with fall_detections_count := c }, false, false)
  else
    ({ m with fall_detections_count := 0 }, false, false)

/-- Violence detection block of `process_frame` (lines 213–227), mirror of
the fall block with its own threshold, counter and statistics key. -/
def violence_step (m : Monitor) (f : FrameSignals) : Monitor × Bool × Bool :=
  if VIOLENCE_THRESHOLD < f.violenceProb then
    let c := m.violence_detections_count + 1
    if CONSECUTIVE_DETECTIONS_NEEDED ≤ c then
      let m1 := { m with stats := dictIncr m.stats "violence_detections" }
      let s := send_alert m1 "violence" f.now
      ({ s.1 with violence_detections_count := 0 }, true, s.2)
    else
      ({ m with violence_detections_count := c }, false, false)
  else
    ({ m with violence_detections_count := 0 }, false, false)

/-- Inactivity block of `process_frame` (lines 229–235). -/
def inactivity_step (m : Monitor) (f : FrameSignals) : Monitor × Bool × Bool :=
  if INACTIVITY_THRESHOLD < f.now - m.last_movement_time ∧
      m.inactivity_alert_sent = false then
    let s := send_alert m "inactivity" f.now
    ({ s.1 with inactivity_alert_sent := true }, true, s.2)
  else
    (m, false, false)

/-- `zone_start = int(w * 0.66)` (line 239), with `w` the frame width. -/
def zone_start (w : ℕ) : ℕ := (w * 66) / 100

/-- Restroom-zone block of `process_frame` (lines 248–264).  When the state
satisfies the zone invariant, `restroom_entry_time` is `some` whenever the
dwell computation runs; the `getD f.now` default covers the state-space
corner Python would crash on (`None` subtraction), which is unreachable
from the constructed state. -/
def restroom_step (m : Monitor) (f : FrameSignals) : Monitor × Bool × Bool :=
  if (zone_start f.width : ℚ) < f.centerX then
    let m1 :=
      if m.in_restroom_zone then m
      else { m with in_restroom_zone := true,
                    restroom_entry_time := some f.now }
    if RESTROOM_THRESHOLD < f.now - m1.restroom_entry_time.getD f.now then
      let s := send_alert m1 "restroom" f.now
      ({ s.1 with restroom_entry_time := some f.now }, true, s.2)
    else
      (m1, false, false)
  else
    ({ m with in_restroom_zone := false, restroom_entry_time := none },
     false, false)

/-- `process_frame(self, frame)` (lines 158–316), restricted to the engine
state and the alert events; rendering-only code is omitted.  The blocks run
in source order: total-frames statistic, then (when a subject is present)
movement, fall, violence, inactivity, restroom zone. -/
def process_frame (m : Monitor) (f : FrameSignals) :
    Monitor × FrameReport :=
  let m0 := { m with stats := dictIncr m.stats "total_frames" }
  if f.present then
    let m1 := movement_step m0 f
    let fr := fall_step m1 f
    let vr := violence_step fr.1 f
    let ir := inactivity_step vr.1 f
    let rr := restroom_step ir.1 f
    (rr.1, ⟨fr.2.1, fr.2.2, vr.2.1, vr.2.2,
            ir.2.1, ir.2.2, rr.2.1, rr.2.2⟩)
  else
    (m0, noReport)

/-- Fold `process_frame` over a list of frames, collecting the reports. -/
def run_frames (m : Monitor) : List FrameSignals → Monitor × List FrameReport
  | [] => (m, [])
  | f :: fs =>
    let s := process_frame m f
    let r := run_frames s.1 fs
    (r.1, s.2 :: r.2)

/-- The confirmation-counter logic extracted from the fall/violence blocks
of `process_frame` (the specification's `observe(kind, probability)`):
given the consecutive counter and a probability, return the new counter and
whether this observation triggers an alert. -/
def observe (threshold : ℚ) (c : ℕ) (p : ℚ) : ℕ × Bool :=
  if threshold < p then
    if CONSECUTIVE_DETECTIONS_NEEDED ≤ c + 1 then (0, true)
    else (c + 1, false)
  else (0, false)

/-- Fold `observe` over a probability sequence, returning the final counter
and the number of observations that triggered. -/
def run_observe (threshold : ℚ) (c : ℕ) : List ℚ → ℕ × ℕ
  | [] => (c, 0)
  | p :: ps =>
    let s := observe threshold c p
    let r := run_observe threshold s.1 ps
    (r.1, (cond s.2 1 0) + r.2)

/-- The engine state just before the restroom block of `process_frame`
(after the total-frames increment and the movement, fall, violence and
inactivity blocks) on a subject-present frame. -/
def preZone (m : Monitor) (f : FrameSignals) : Monitor :=
  (inactivity_step (violence_step (fall_step
    (movement_step { m with stats := dictIncr m.stats "total_frames" } f)
    f).1 f).1 f).1

/-- This frame detects no movement: either the subject is absent, or no
previous position is recorded, or the displacement is within the noise
floor (squared magnitude at most 25, i.e. distance at most 5). -/
def still (m : Monitor) (f : FrameSignals) : Bool :=
  !f.present ||
    (match m.last_position with
     | some p => decide (sumSqDiff f.kp p ≤ 25)
     | none => true)

/-- The subject stays stationary throughout a frame sequence: no frame of
the run, evaluated against the engine state reached at that frame,
detects movement. -/
def stationaryRun (m : Monitor) : List FrameSignals → Bool
  | [] => true
  | f :: fs => still m f && stationaryRun (process_frame m f).1 fs

/-- The zone-state invariant of the specification:
`entry_time.is_some() == occupied`. -/
def zoneInv (m : Monitor) : Prop :=
  m.restroom_entry_time.isSome = m.in_restroom_zone

/-- Restroom bookkeeping invariant, relative to a lower bound `t` on all
future frame instants: the recorded last restroom dispatch is not in the
future, and any recorded zone-entry instant lies between that dispatch
and `t`. -/
def RestroomInv (m : Monitor) (t : ℚ) : Prop :=
  dictGetQ m.last_alert_time "restroom" 0 ≤ t ∧
  ∀ e : ℚ, m.restroom_entry_time = some e →
    dictGetQ m.last_alert_time "restroom" 0 ≤ e ∧ e ≤ t

/-! ### Concrete inputs for the closed scenario theorems -/

/-- A subject-present frame with keypoints at the origin and center
x = 0 in a 100-pixel-wide frame (outside the restroom zone), with the
given instant and fall/violence probabilities. -/
def plainFrame (t fp vp : ℚ) : FrameSignals :=
  { now := t, present := true, kp := [(0, 0)], centerX := 0,
    width := 100, fallProb := fp, violenceProb := vp }

/-- A subject-absent frame at the given instant. -/
def absentFrame (t : ℚ) : FrameSignals :=
  { now := t, present := false, kp := [], centerX := 0, width := 100,
    fallProb := 0, violenceProb := 0 }

/-- A fresh engine (constructed at instant 0) whose restroom zone has
been occupied since instant `e`. -/
def occupiedMonitor (e : ℚ) : Monitor :=
  { initMonitor 0 with in_restroom_zone := true,
                       restroom_entry_time := some e }

/-- A subject-present frame inside the restroom zone (center x = 90 in a
100-pixel-wide frame, zone boundary 66). -/
def zoneFrame (t : ℚ) : FrameSignals :=
  { now := t, present := true, kp := [(90, 0)], centerX := 90,
    width := 100, fallProb := 0, violenceProb := 0 }

/-- Ten consecutive subject-present frames, one second apart, each with
fall probability 1 (above the 0.95 threshold). -/
def tenFallFrames : List FrameSignals :=
  [plainFrame 1000 1 0, plainFrame 1001 1 0, plainFrame 1002 1 0,
   plainFrame 1003 1 0, plainFrame 1004 1 0, plainFrame 1005 1 0,
   plainFrame 1006 1 0, plainFrame 1007 1 0, plainFrame 1008 1 0,
   plainFrame 1009 1 0]

/-- Four in-order fall frames followed by one whose timestamp jumps
backwards (90 < 103), still with fall probability 1. -/
def outOfOrderFrames : List FrameSignals :=
  [plainFrame 100 1 0, plainFrame 101 1 0, plainFrame 102 1 0,
   plainFrame 103 1 0, plainFrame 90 1 0]

/-- The specification's confirmation example: threshold 0.9,
`[0.95]*4 + [0.1] + [0.95]*5`. -/
def specExampleSeq : List ℚ :=
  [95/100, 95/100, 95/100, 95/100, 1/10,
   95/100, 95/100, 95/100, 95/100, 95/100]

/-! ### Association-list (Python dict) lemmas -/

theorem dictGetQ_set_same (d : List (String × ℚ)) (k : String) (v dflt : ℚ) :
    dictGetQ (dictSetQ d k v) k dflt = v := by
  induction d with
  | nil => simp [dictSetQ, dictGetQ]
  | cons hd tl ih =>
    obtain ⟨k0, v0⟩ := hd
    by_cases h : k0 = k <;> simp [dictSetQ, dictGetQ, h, ih]

theorem dictGetQ_set_other (d : List (String × ℚ)) (k' k : String)
    (v dflt : ℚ) (h : k' ≠ k) :
    dictGetQ (dictSetQ d k' v) k dflt = dictGetQ d k dflt := by
  induction d with
  | nil => simp [dictSetQ, dictGetQ, h]
  | cons hd tl ih =>
    obtain ⟨k0, v0⟩ := hd
    by_cases h0 : k0 = k'
    · subst h0; simp [dictSetQ, dictGetQ, h]
    · simp [dictSetQ, dictGetQ, h0, ih]

theorem dictGetN_incr_same (d : List (String × ℕ)) (k : String)
    (h : dictMem d k = true) :
    dictGetN (dictIncr d k) k = dictGetN d k + 1 := by
  induction d with
  | nil => simp [dictMem] at h
  | cons hd tl ih =>
    obtain ⟨k0, v0⟩ := hd
    by_cases h0 : k0 = k
    · simp [dictIncr, dictGetN, h0]
    · simp [dictMem, h0] at h
      simp [dictIncr, dictGetN, h0, ih h]

theorem dictGetN_incr_other (d : List (String × ℕ)) (k' k : String)
    (h : k' ≠ k) :
    dictGetN (dictIncr d k') k = dictGetN d k := by
  induction d with
  | nil => simp [dictIncr]
  | cons hd tl ih =>
    obtain ⟨k0, v0⟩ := hd
    by_cases h0 : k0 = k'
    · subst h0; simp [dictIncr, dictGetN, h, ih]
    · simp [dictIncr, dictGetN, h0, ih]

theorem dictMem_incr (d : List (String × ℕ)) (k' k : String) :
    dictMem (dictIncr d k') k = dictMem d k := by
  induction d with
  | nil => simp [dictIncr]
  | cons hd tl ih =>
    obtain ⟨k0, v0⟩ := hd
    by_cases h0 : k0 = k'
    · subst h0; by_cases h1 : k0 = k <;> simp [dictIncr, dictMem, h1, ih]
    · by_cases h1 : k0 = k
      · subst h1; simp [dictIncr, dictMem, h0]
      · simp [dictIncr, dictMem, h0, h1, ih]

/-! ### `send_alert` lemmas -/

theorem send_alert_suppressed (m : Monitor) (t : String) (now : ℚ)
    (h : now - dictGetQ m.last_alert_time t 0 < alert_cooldown) :
    send_alert m t now = (m, false) := by
  simp [send_alert, h]

theorem send_alert_passed (m : Monitor) (t : String) (now : ℚ)
    (h : ¬ now - dictGetQ m.last_alert_time t 0 < alert_cooldown) :
    send_alert m t now =
      ({ m with
          last_alert_time := dictSetQ m.last_alert_time t now,
          stats := if dictMem m.stats t then dictIncr m.stats (t ++ "_alerts")
                   else m.stats }, true) := by
  simp [send_alert, h]

theorem send_alert_frame (m : Monitor) (t : String) (now : ℚ) :
    (send_alert m t now).1.last_movement_time = m.last_movement_time ∧
    (send_alert m t now).1.last_position = m.last_position ∧
    (send_alert m t now).1.inactivity_alert_sent = m.inactivity_alert_sent ∧
    (send_alert m t now).1.in_restroom_zone = m.in_restroom_zone ∧
    (send_alert m t now).1.restroom_entry_time = m.restroom_entry_time ∧
    (send_alert m t now).1.fall_detections_count = m.fall_detections_count ∧
    (send_alert m t now).1.violence_detections_count
      = m.violence_detections_count := by
  unfold send_alert; split <;> simp

theorem send_alert_stats_getN (m : Monitor) (t : String) (now : ℚ)
    (k : String) (h : t ++ "_alerts" ≠ k) :
    dictGetN (send_alert m t now).1.stats k = dictGetN m.stats k := by
  unfold send_alert; split
  · rfl
  · by_cases hm : dictMem m.stats t <;>
      simp [hm, dictGetN_incr_other _ _ _ h]

theorem send_alert_stats_mem (m : Monitor) (t : String) (now : ℚ)
    (k : String) :
    dictMem (send_alert m t now).1.stats k = dictMem m.stats k := by
  unfold send_alert; split
  · rfl
  · by_cases hm : dictMem m.stats t <;> simp [hm, dictMem_incr]

theorem send_alert_last_other (m : Monitor) (t : String) (now : ℚ)
    (k : String) (h : t ≠ k) (dflt : ℚ) :
    dictGetQ (send_alert m t now).1.last_alert_time k dflt
      = dictGetQ m.last_alert_time k dflt := by
  unfold send_alert; split
  · rfl
  · simp [dictGetQ_set_other _ _ _ _ _ h]

theorem send_alert_last_same (m : Monitor) (t : String) (now : ℚ)
    (h : (send_alert m t now).2 = true) (dflt : ℚ) :
    dictGetQ (send_alert m t now).1.last_alert_time t dflt = now := by
  by_cases hc : now - dictGetQ m.last_alert_time t 0 < alert_cooldown
  · rw [send_alert_suppressed m t now hc] at h; simp at h
  · rw [send_alert_passed m t now hc]; simp [dictGetQ_set_same]

/-! ### Per-block effect lemmas for `process_frame` -/

theorem movement_step_frame (m : Monitor) (f : FrameSignals) :
    (movement_step m f).in_restroom_zone = m.in_restroom_zone ∧
    (movement_step m f).restroom_entry_time = m.restroom_entry_time ∧
    (movement_step m f).fall_detections_count = m.fall_detections_count ∧
    (movement_step m f).violence_detections_count
      = m.violence_detections_count ∧
    (movement_step m f).stats = m.stats ∧
    (movement_step m f).last_alert_time = m.last_alert_time ∧
    (movement_step m f).last_position = some f.kp := by
  unfold movement_step
  rcases m.last_position with _ | prev <;> dsimp only
  · simp
  · split <;> simp

theorem fall_step_frame (m : Monitor) (f : FrameSignals) :
    (fall_step m f).1.last_movement_time = m.last_movement_time ∧
    (fall_step m f).1.last_position = m.last_position ∧
    (fall_step m f).1.inactivity_alert_sent = m.inactivity_alert_sent ∧
    (fall_step m f).1.in_restroom_zone = m.in_restroom_zone ∧
    (fall_step m f).1.restroom_entry_time = m.restroom_entry_time ∧
    (fall_step m f).1.violence_detections_count
      = m.violence_detections_count := by
  unfold fall_step
  split
  · dsimp only
    split
    · simp [send_alert_frame]
    · simp
  · simp

theorem violence_step_frame (m : Monitor) (f : FrameSignals) :
    (violence_step m f).1.last_movement_time = m.last_movement_time ∧
    (violence_step m f).1.last_position = m.last_position ∧
    (violence_step m f).1.inactivity_alert_sent = m.inactivity_alert_sent ∧
    (violence_step m f).1.in_restroom_zone = m.in_restroom_zone ∧
    (violence_step m f).1.restroom_entry_time = m.restroom_entry_time ∧
    (violence_step m f).1.fall_detections_count
      = m.fall_detections_count := by
  unfold violence_step
  split
  · dsimp only
    split
    · simp [send_alert_frame]
    · simp
  · simp

theorem inactivity_step_frame (m : Monitor) (f : FrameSignals) :
    (inactivity_step m f).1.last_movement_time = m.last_movement_time ∧
    (inactivity_step m f).1.last_position = m.last_position ∧
    (inactivity_step m f).1.in_restroom_zone = m.in_restroom_zone ∧
    (inactivity_step m f).1.restroom_entry_time = m.restroom_entry_time ∧
    (inactivity_step m f).1.fall_detections_count
      = m.fall_detections_count ∧
    (inactivity_step m f).1.violence_detections_count
      = m.violence_detections_count := by
  unfold inactivity_step
  split
  · simp [send_alert_frame]
  · simp

theorem restroom_step_frame (m : Monitor) (f : FrameSignals) :
    (restroom_step m f).1.last_movement_time = m.last_movement_time ∧
    (restroom_step m f).1.last_position = m.last_position ∧
    (restroom_step m f).1.inactivity_alert_sent = m.inactivity_alert_sent ∧
    (restroom_step m f).1.fall_detections_count
      = m.fall_detections_count ∧
    (restroom_step m f).1.violence_detections_count
      = m.violence_detections_count := by
  unfold restroom_step
  split
  · dsimp only
    split <;> split <;> simp [send_alert_frame]
  · simp

theorem fall_step_stats_getN (m : Monitor) (f : FrameSignals) (k : String)
    (h1 : "fall_detections" ≠ k) (h2 : "fall" ++ "_alerts" ≠ k) :
    dictGetN (fall_step m f).1.stats k = dictGetN m.stats k := by
  unfold fall_step
  split
  · dsimp only
    split
    · simp [send_alert_stats_getN _ _ _ _ h2, dictGetN_incr_other _ _ _ h1]
    · simp
  · simp

theorem fall_step_stats_mem (m : Monitor) (f : FrameSignals) (k : String) :
    dictMem (fall_step m f).1.stats k = dictMem m.stats k := by
  unfold fall_step
  split
  · dsimp only
    split <;> simp [send_alert_stats_mem, dictMem_incr]
  · simp

theorem fall_step_last_other (m : Monitor) (f : FrameSignals) (k : String)
    (h : "fall" ≠ k) (dflt : ℚ) :
    dictGetQ (fall_step m f).1.last_alert_time k dflt
      = dictGetQ m.last_alert_time k dflt := by
  unfold fall_step
  split
  · dsimp only
    split <;> simp [send_alert_last_other _ _ _ _ h]
  · simp

theorem violence_step_stats_getN (m : Monitor) (f : FrameSignals)
    (k : String) (h1 : "violence_detections" ≠ k)
    (h2 : "violence" ++ "_alerts" ≠ k) :
    dictGetN (violence_step m f).1.stats k = dictGetN m.stats k := by
  unfold violence_step
  split
  · dsimp only
    split
    · simp [send_alert_stats_getN _ _ _ _ h2, dictGetN_incr_other _ _ _ h1]
    · simp
  · simp

theorem violence_step_stats_mem (m : Monitor) (f : FrameSignals)
    (k : String) :
    dictMem (violence_step m f).1.stats k = dictMem m.stats k := by
  unfold violence_step
  split
  · dsimp only
    split <;> simp [send_alert_stats_mem, dictMem_incr]
  · simp

theorem violence_step_last_other (m : Monitor) (f : FrameSignals)
    (k : String) (h : "violence" ≠ k) (dflt : ℚ) :
    dictGetQ (violence_step m f).1.last_alert_time k dflt
      = dictGetQ m.last_alert_time k dflt := by
  unfold violence_step
  split
  · dsimp only
    split <;> simp [send_alert_last_other _ _ _ _ h]
  · simp

theorem inactivity_step_stats_getN (m : Monitor) (f : FrameSignals)
    (k : String) (h : "inactivity" ++ "_alerts" ≠ k) :
    dictGetN (inactivity_step m f).1.stats k = dictGetN m.stats k := by
  unfold inactivity_step
  split
  · simp [send_alert_stats_getN _ _ _ _ h]
  · simp

theorem inactivity_step_stats_mem (m : Monitor) (f : FrameSignals)
    (k : String) :
    dictMem (inactivity_step m f).1.stats k = dictMem m.stats k := by
  unfold inactivity_step
  split <;> simp [send_alert_stats_mem]

theorem inactivity_step_last_other (m : Monitor) (f : FrameSignals)
    (k : String) (h : "inactivity" ≠ k) (dflt : ℚ) :
    dictGetQ (inactivity_step m f).1.last_alert_time k dflt
      = dictGetQ m.last_alert_time k dflt := by
  unfold inactivity_step
  split <;> simp [send_alert_last_other _ _ _ _ h]

theorem restroom_step_stats_getN (m : Monitor) (f : FrameSignals)
    (k : String) (h : "restroom" ++ "_alerts" ≠ k) :
    dictGetN (restroom_step m f).1.stats k = dictGetN m.stats k := by
  unfold restroom_step
  split
  · dsimp only
    split <;> split <;> simp [send_alert_stats_getN _ _ _ _ h]
  · simp

theorem restroom_step_stats_mem (m : Monitor) (f : FrameSignals)
    (k : String) :
    dictMem (restroom_step m f).1.stats k = dictMem m.stats k := by
  unfold restroom_step
  split
  · dsimp only
    split <;> split <;> simp [send_alert_stats_mem]
  · simp

theorem restroom_step_last_other (m : Monitor) (f : FrameSignals)
    (k : String) (h : "restroom" ≠ k) (dflt : ℚ) :
    dictGetQ (restroom_step m f).1.last_alert_time k dflt
      = dictGetQ m.last_alert_time k dflt := by
  unfold restroom_step
  split
  · dsimp only
    split <;> split <;> simp [send_alert_last_other _ _ _ _ h]
  · simp

theorem fall_step_count_trigger (m : Monitor) (f : FrameSignals) :
    ((fall_step m f).1.fall_detections_count, (fall_step m f).2.1)
      = observe FALL_THRESHOLD m.fall_detections_count f.fallProb := by
  unfold fall_step observe
  split
  · dsimp only
    split <;> simp
  · simp

theorem violence_step_count_trigger (m : Monitor) (f : FrameSignals) :
    ((violence_step m f).1.violence_detections_count,
      (violence_step m f).2.1)
      = observe VIOLENCE_THRESHOLD m.violence_detections_count
          f.violenceProb := by
  unfold violence_step observe
  split
  · dsimp only
    split <;> simp
  · simp

theorem fall_step_count (m : Monitor) (f : FrameSignals) :
    (fall_step m f).1.fall_detections_count
      = (observe FALL_THRESHOLD m.fall_detections_count f.fallProb).1 :=
  congrArg Prod.fst (fall_step_count_trigger m f)

theorem fall_step_trigger (m : Monitor) (f : FrameSignals) :
    (fall_step m f).2.1
      = (observe FALL_THRESHOLD m.fall_detections_count f.fallProb).2 :=
  congrArg Prod.snd (fall_step_count_trigger m f)

theorem violence_step_count (m : Monitor) (f : FrameSignals) :
    (violence_step m f).1.violence_detections_count
      = (observe VIOLENCE_THRESHOLD m.violence_detections_count
          f.violenceProb).1 :=
  congrArg Prod.fst (violence_step_count_trigger m f)

theorem violence_step_trigger (m : Monitor) (f : FrameSignals) :
    (violence_step m f).2.1
      = (observe VIOLENCE_THRESHOLD m.violence_detections_count
          f.violenceProb).2 :=
  congrArg Prod.snd (violence_step_count_trigger m f)

/-! ### `process_frame` decomposition -/

theorem process_frame_present (m : Monitor) (f : FrameSignals)
    (h : f.present = true) :
    process_frame m f =
      (let m0 : Monitor := { m with stats := dictIncr m.stats "total_frames" }
       let m1 := movement_step m0 f
       let fr := fall_step m1 f
       let vr := violence_step fr.1 f
       let ir := inactivity_step vr.1 f
       let rr := restroom_step ir.1 f
       (rr.1, ⟨fr.2.1, fr.2.2, vr.2.1, vr.2.2,
               ir.2.1, ir.2.2, rr.2.1, rr.2.2⟩)) := by
  unfold process_frame; rw [h]; simp

theorem process_frame_absent (m : Monitor) (f : FrameSignals)
    (h : f.present = false) :
    process_frame m f =
      ({ m with stats := dictIncr m.stats "total_frames" }, noReport) := by
  unfold process_frame; rw [h]; simp

/-! ### Confirmation-counter run lemmas -/

theorem run_observe_all_above (t : ℚ) (ps : List ℚ) :
    ∀ c : ℕ, c < 5 → (∀ p ∈ ps, t < p) →
      (run_observe t c ps).2 = (c + ps.length) / 5 ∧
      (run_observe t c ps).1 = (c + ps.length) % 5 := by
  induction ps with
  | nil =>
    intro c hc _
    simp [run_observe, Nat.div_eq_of_lt hc, Nat.mod_eq_of_lt hc]
  | cons p ps ih =>
    intro c hc hall
    have hp : t < p := hall p (List.mem_cons_self p ps)
    have htl : ∀ q ∈ ps, t < q := fun q hq => hall q (List.mem_cons_of_mem p hq)
    by_cases h5 : 5 ≤ c + 1
    · have hob : observe t c p = (0, true) := by
        simp [observe, CONSECUTIVE_DETECTIONS_NEEDED, hp, h5]
      have hrec := ih 0 (by omega) htl
      simp only [run_observe, hob, List.length_cons, cond_true]
      constructor
      · rw [hrec.1]; omega
      · rw [hrec.2]; omega
    · have hob : observe t c p = (c + 1, false) := by
        simp [observe, CONSECUTIVE_DETECTIONS_NEEDED, hp, h5]
      have hrec := ih (c + 1) (by omega) htl
      simp only [run_observe, hob, List.length_cons, cond_false]
      constructor
      · rw [hrec.1]; omega
      · rw [hrec.2]; omega

theorem run_observe_never_above (t : ℚ) (ps : List ℚ) :
    ∀ c : ℕ, (∀ p ∈ ps, p ≤ t) → (run_observe t c ps).2 = 0 := by
  induction ps with
  | nil => intro c _; simp [run_observe]
  | cons p ps ih =>
    intro c hall
    have hp : ¬ t < p := not_lt.mpr (hall p (List.mem_cons_self p ps))
    have hob : observe t c p = (0, false) := by simp [observe, hp]
    simp only [run_observe, hob]
    simpa using ih 0 (fun q hq => hall q (List.mem_cons_of_mem p hq))

theorem fall_step_stats_trigger (m : Monitor) (f : FrameSignals)
    (hthr : FALL_THRESHOLD < f.fallProb)
    (hc : CONSECUTIVE_DETECTIONS_NEEDED ≤ m.fall_detections_count + 1)
    (hmem : dictMem m.stats "fall_detections" = true) :
    dictGetN (fall_step m f).1.stats "fall_detections"
      = dictGetN m.stats "fall_detections" + 1 := by
  unfold fall_step
  rw [if_pos hthr]
  dsimp only
  rw [if_pos hc]
  dsimp only
  rw [send_alert_stats_getN _ _ _ _ (by decide)]
  exact dictGetN_incr_same m.stats _ hmem

theorem violence_step_stats_trigger (m : Monitor) (f : FrameSignals)
    (hthr : VIOLENCE_THRESHOLD < f.violenceProb)
    (hc : CONSECUTIVE_DETECTIONS_NEEDED ≤ m.violence_detections_count + 1)
    (hmem : dictMem m.stats "violence_detections" = true) :
    dictGetN (violence_step m f).1.stats "violence_detections"
      = dictGetN m.stats "violence_detections" + 1 := by
  unfold violence_step
  rw [if_pos hthr]
  dsimp only
  rw [if_pos hc]
  dsimp only
  rw [send_alert_stats_getN _ _ _ _ (by decide)]
  exact dictGetN_incr_same m.stats _ hmem

/-! ### Movement / inactivity case lemmas -/

theorem movement_step_none (m : Monitor) (f : FrameSignals)
    (h : m.last_position = none) :
    movement_step m f = { m with last_position := some f.kp } := by
  unfold movement_step; rw [h]

theorem movement_step_still (m : Monitor) (f : FrameSignals)
    (p : List (ℚ × ℚ)) (h : m.last_position = some p)
    (hs : ¬ 25 < sumSqDiff f.kp p) :
    movement_step m f = { m with last_position := some f.kp } := by
  unfold movement_step; rw [h]; dsimp only; rw [if_neg hs]

theorem movement_step_moved (m : Monitor) (f : FrameSignals)
    (p : List (ℚ × ℚ)) (h : m.last_position = some p)
    (hs : 25 < sumSqDiff f.kp p) :
    movement_step m f =
      { m with last_movement_time := f.now,
               inactivity_alert_sent := false,
               last_position := some f.kp } := by
  unfold movement_step; rw [h]; dsimp only; rw [if_pos hs]

theorem inactivity_step_skip (m : Monitor) (f : FrameSignals)
    (h : ¬ (INACTIVITY_THRESHOLD < f.now - m.last_movement_time ∧
            m.inactivity_alert_sent = false)) :
    inactivity_step m f = (m, false, false) := by
  unfold inactivity_step; rw [if_neg h]

theorem inactivity_step_fire (m : Monitor) (f : FrameSignals)
    (h : INACTIVITY_THRESHOLD < f.now - m.last_movement_time)
    (hs : m.inactivity_alert_sent = false) :
    inactivity_step m f =
      ({ (send_alert m "inactivity" f.now).1 with
          inactivity_alert_sent := true },
       true, (send_alert m "inactivity" f.now).2) := by
  unfold inactivity_step; rw [if_pos ⟨h, hs⟩]

/-- On a present frame whose displacement from the recorded position
exceeds the noise floor, the movement block resets the inactivity clock
to the frame instant and clears the one-shot flag; the inactivity block
then sees zero elapsed inactivity and leaves both untouched. -/
theorem process_frame_moved (m : Monitor) (f : FrameSignals)
    (p : List (ℚ × ℚ)) (hp : f.present = true)
    (h : m.last_position = some p) (hs : 25 < sumSqDiff f.kp p) :
    (process_frame m f).1.last_movement_time = f.now ∧
    (process_frame m f).1.inactivity_alert_sent = false ∧
    (process_frame m f).1.last_position = some f.kp ∧
    (process_frame m f).2.inactivityTrigger = false := by
  rw [process_frame_present m f hp]
  dsimp only
  rw [movement_step_moved
        { m with stats := dictIncr m.stats "total_frames" } f p h hs]
  have hlmt :
      (violence_step (fall_step { m with
          last_movement_time := f.now, inactivity_alert_sent := false,
          last_position := some f.kp,
          stats := dictIncr m.stats "total_frames" } f).1
        f).1.last_movement_time = f.now := by
    rw [(violence_step_frame _ _).1, (fall_step_frame _ _).1]
  have hsent :
      (violence_step (fall_step { m with
          last_movement_time := f.now, inactivity_alert_sent := false,
          last_position := some f.kp,
          stats := dictIncr m.stats "total_frames" } f).1
        f).1.inactivity_alert_sent = false := by
    rw [(violence_step_frame _ _).2.2.1, (fall_step_frame _ _).2.2.1]
  have hskip := inactivity_step_skip
    (violence_step (fall_step { m with
        last_movement_time := f.now, inactivity_alert_sent := false,
        last_position := some f.kp,
        stats := dictIncr m.stats "total_frames" } f).1 f).1 f
    (by rw [hlmt]; intro hco
        have h0 : f.now - f.now = 0 := sub_self f.now
        rw [h0] at hco
        exact absurd hco.1 (by decide))
  refine ⟨?_, ?_, ?_, ?_⟩
  · rw [(restroom_step_frame _ _).1, hskip, hlmt]
  · rw [(restroom_step_frame _ _).2.2.1, hskip, hsent]
  · rw [(restroom_step_frame _ _).2.1, hskip,
        (violence_step_frame _ _).2.1, (fall_step_frame _ _).2.1]
  · rw [hskip]

/-- On a frame that detects no movement, an already-set one-shot flag
stays set and no inactivity dispatch is attempted. -/
theorem process_frame_sent_still (m : Monitor) (f : FrameSignals)
    (hsent : m.inactivity_alert_sent = true)
    (hstill : still m f = true) :
    (process_frame m f).2.inactivityTrigger = false ∧
    (process_frame m f).1.inactivity_alert_sent = true := by
  cases hp : f.present
  · rw [process_frame_absent m f hp]
    exact ⟨rfl, hsent⟩
  · rw [process_frame_present m f hp]
    dsimp only
    have hmv : movement_step
        { m with stats := dictIncr m.stats "total_frames" } f
        = { m with stats := dictIncr m.stats "total_frames",
                   last_position := some f.kp } := by
      unfold still at hstill
      rw [hp] at hstill
      cases hlp : m.last_position with
      | none => exact movement_step_none _ f rfl
      | some p =>
        rw [hlp] at hstill
        simp only [Bool.not_true, Bool.false_or] at hstill
        exact movement_step_still _ f p rfl
          (not_lt.mpr (of_decide_eq_true hstill))
    rw [hmv]
    have hsent2 :
        (violence_step (fall_step { m with
            stats := dictIncr m.stats "total_frames",
            last_position := some f.kp } f).1 f).1.inactivity_alert_sent
          = true := by
      rw [(violence_step_frame _ _).2.2.1, (fall_step_frame _ _).2.2.1]
      exact hsent
    have hskip := inactivity_step_skip
      (violence_step (fall_step { m with
          stats := dictIncr m.stats "total_frames",
          last_position := some f.kp } f).1 f).1 f
      (by rw [hsent2]; intro hco; exact absurd hco.2 (by simp))
    constructor
    · rw [hskip]
    · rw [(restroom_step_frame _ _).2.2.1, hskip, hsent2]

/-! ### Claim C3 -/

/-- Claim C3: for each binary condition (fall, violence) with its threshold
and confirmation window N = 5, on every subject-present frame the engine's
consecutive counter and trigger decision follow the confirmation-counter
step `observe`: a probability strictly above the threshold increments the
counter and triggers exactly when the incremented counter reaches 5,
whereupon the counter resets to 0, while a probability at or below the
threshold resets the counter to 0 without triggering.  Consequently a run
of exactly 5 consecutive above-threshold frames from a zero counter
triggers exactly once (on the 5th), a run of 4 never triggers, and a
sequence that never exceeds the threshold never triggers. -/
theorem C3_consecutive_confirmation :
    (∀ (m : Monitor) (f : FrameSignals), f.present = true →
      (process_frame m f).1.fall_detections_count
          = (observe FALL_THRESHOLD m.fall_detections_count f.fallProb).1 ∧
      (process_frame m f).2.fallTrigger
          = (observe FALL_THRESHOLD m.fall_detections_count f.fallProb).2 ∧
      (process_frame m f).1.violence_detections_count
          = (observe VIOLENCE_THRESHOLD m.violence_detections_count
              f.violenceProb).1 ∧
      (process_frame m f).2.violenceTrigger
          = (observe VIOLENCE_THRESHOLD m.violence_detections_count
              f.violenceProb).2) ∧
    (∀ (t p : ℚ) (c : ℕ), t < p →
      observe t c p
        = (if CONSECUTIVE_DETECTIONS_NEEDED ≤ c + 1 then 0 else c + 1,
           decide (CONSECUTIVE_DETECTIONS_NEEDED ≤ c + 1))) ∧
    (∀ (t p : ℚ) (c : ℕ), p ≤ t → observe t c p = (0, false)) ∧
    (∀ (t : ℚ) (ps : List ℚ), (∀ p ∈ ps, t < p) → ps.length = 5 →
      (run_observe t 0 ps).2 = 1 ∧ (run_observe t 0 (ps.take 4)).2 = 0) ∧
    (∀ (t : ℚ) (ps : List ℚ), (∀ p ∈ ps, t < p) → ps.length = 4 →
      (run_observe t 0 ps).2 = 0) ∧
    (∀ (t : ℚ) (c : ℕ) (ps : List ℚ), (∀ p ∈ ps, p ≤ t) →
      (run_observe t c ps).2 = 0) := by
  refine ⟨?_, ?_, ?_, ?_, ?_, ?_⟩
  · intro m f h
    rw [process_frame_present m f h]
    dsimp only
    refine ⟨?_, ?_, ?_, ?_⟩
    · rw [(restroom_step_frame _ _).2.2.2.1,
          (inactivity_step_frame _ _).2.2.2.2.1,
          (violence_step_frame _ _).2.2.2.2.2, fall_step_count,
          (movement_step_frame _ _).2.2.1]
    · rw [fall_step_trigger, (movement_step_frame _ _).2.2.1]
    · rw [(restroom_step_frame _ _).2.2.2.2,
          (inactivity_step_frame _ _).2.2.2.2.2, violence_step_count,
          (fall_step_frame _ _).2.2.2.2.2,
          (movement_step_frame _ _).2.2.2.1]
    · rw [violence_step_trigger, (fall_step_frame _ _).2.2.2.2.2,
          (movement_step_frame _ _).2.2.2.1]
  · intro t p c h
    by_cases h5 : CONSECUTIVE_DETECTIONS_NEEDED ≤ c + 1 <;>
      simp [observe, h, h5]
  · intro t p c h
    simp [observe, not_lt.mpr h]
  · intro t ps hall hlen
    constructor
    · have := (run_observe_all_above t ps 0 (by omega) hall).1
      rw [this, hlen]
    · have htake : ∀ p ∈ ps.take 4, t < p :=
        fun p hp => hall p (List.take_subset 4 ps hp)
      have := (run_observe_all_above t (ps.take 4) 0 (by omega) htake).1
      rw [this, List.length_take, hlen]
      rfl
  · intro t ps hall hlen
    have := (run_observe_all_above t ps 0 (by omega) hall).1
    rw [this, hlen]
  · intro t c ps hall
    exact run_observe_never_above t ps c hall

/-- Witness for C3: the theorem applied at concrete inputs — a present
frame with fall probability 1 from the freshly constructed engine, the
counter at 4 (and at 0 with probability 0), and the all-above /
never-above runs; plus the specification's example sequence evaluated
directly (one trigger, on the 10th element). -/
theorem C3_consecutive_confirmation_witness :
    ((process_frame (initMonitor 0) (plainFrame 1000 1 0)).1.fall_detections_count
        = (observe FALL_THRESHOLD 0 1).1) ∧
    observe FALL_THRESHOLD 4 1
      = (if CONSECUTIVE_DETECTIONS_NEEDED ≤ 4 + 1 then 0 else 4 + 1,
         decide (CONSECUTIVE_DETECTIONS_NEEDED ≤ 4 + 1)) ∧
    observe FALL_THRESHOLD 0 0 = (0, false) ∧
    ((run_observe FALL_THRESHOLD 0 [1, 1, 1, 1, 1]).2 = 1 ∧
      (run_observe FALL_THRESHOLD 0 ([1, 1, 1, 1, 1].take 4)).2 = 0) ∧
    (run_observe FALL_THRESHOLD 0 [1, 1, 1, 1]).2 = 0 ∧
    (run_observe VIOLENCE_THRESHOLD 3 [0, 0, 0]).2 = 0 ∧
    (run_observe VIOLENCE_THRESHOLD 0 specExampleSeq).2 = 1 ∧
    (run_observe VIOLENCE_THRESHOLD 0 (specExampleSeq.take 9)).2 = 0 :=
  ⟨(C3_consecutive_confirmation.1 (initMonitor 0) (plainFrame 1000 1 0)
      rfl).1,
   C3_consecutive_confirmation.2.1 FALL_THRESHOLD 1 4 (by decide),
   C3_consecutive_confirmation.2.2.1 FALL_THRESHOLD 0 0 (by decide),
   C3_consecutive_confirmation.2.2.2.1 FALL_THRESHOLD [1, 1, 1, 1, 1]
     (by decide) (by decide),
   C3_consecutive_confirmation.2.2.2.2.1 FALL_THRESHOLD [1, 1, 1, 1]
     (by decide) (by decide),
   C3_consecutive_confirmation.2.2.2.2.2 VIOLENCE_THRESHOLD 3 [0, 0, 0]
     (by decide),
   by decide, by decide⟩

/-! ### Claim C1 -/

/-- Counterexample to claim C1 as stated: on the 10th frame of
`tenFallFrames` a fall dispatch is attempted 5 s after the previous fall
dispatch at t = 1004 (within the 10 s cooldown, so it is suppressed and
the last-dispatch time stays 1004) — yet the `fall_detections` statistics
counter changes from 1 to 2 as a result of that suppressed trigger. -/
theorem C1_cooldown_side_effect_cex :
    (1009 : ℚ) - 1004 < alert_cooldown ∧
    (run_frames (initMonitor 999) tenFallFrames).2.getLast? =
      some { noReport with fallTrigger := true, fallDispatched := false } ∧
    dictGetQ (run_frames (initMonitor 999) tenFallFrames).1.last_alert_time
      "fall" 0 = 1004 ∧
    dictGetN (run_frames (initMonitor 999)
      (tenFallFrames.take 9)).1.stats "fall_detections" = 1 ∧
    dictGetN (run_frames (initMonitor 999) tenFallFrames).1.stats
      "fall_detections" = 2 := by decide

/-- Claim C1 amended: a dispatch attempt within the cooldown window is
suppressed with no side effect inside `send_alert` itself (no callback, no
last-dispatch update, no statistics change) — but the per-kind fall and
violence detection statistics counters are incremented by `process_frame`
on every 5th-consecutive trigger before the dispatch attempt, so they do
change as a result of a cooldown-suppressed trigger. -/
theorem C1_cooldown_suppression_amended :
    (∀ (m : Monitor) (t : String) (now : ℚ),
      now - dictGetQ m.last_alert_time t 0 < alert_cooldown →
      send_alert m t now = (m, false)) ∧
    (∀ (m : Monitor) (f : FrameSignals), f.present = true →
      FALL_THRESHOLD < f.fallProb →
      CONSECUTIVE_DETECTIONS_NEEDED ≤ m.fall_detections_count + 1 →
      dictMem m.stats "fall_detections" = true →
      dictGetN (process_frame m f).1.stats "fall_detections"
        = dictGetN m.stats "fall_detections" + 1) ∧
    (∀ (m : Monitor) (f : FrameSignals), f.present = true →
      VIOLENCE_THRESHOLD < f.violenceProb →
      CONSECUTIVE_DETECTIONS_NEEDED ≤ m.violence_detections_count + 1 →
      dictMem m.stats "violence_detections" = true →
      dictGetN (process_frame m f).1.stats "violence_detections"
        = dictGetN m.stats "violence_detections" + 1) := by
  refine ⟨?_, ?_, ?_⟩
  · exact send_alert_suppressed
  · intro m f hp hthr hc hmem
    rw [process_frame_present m f hp]
    dsimp only
    rw [restroom_step_stats_getN _ _ _ (by decide),
        inactivity_step_stats_getN _ _ _ (by decide),
        violence_step_stats_getN _ _ _ (by decide) (by decide),
        fall_step_stats_trigger _ _ hthr
          (by rw [(movement_step_frame _ _).2.2.1]; exact hc)
          (by rw [(movement_step_frame _ _).2.2.2.2.1, dictMem_incr]
              exact hmem),
        (movement_step_frame _ _).2.2.2.2.1,
        dictGetN_incr_other _ _ _ (by decide)]
  · intro m f hp hthr hc hmem
    rw [process_frame_present m f hp]
    dsimp only
    rw [restroom_step_stats_getN _ _ _ (by decide),
        inactivity_step_stats_getN _ _ _ (by decide),
        violence_step_stats_trigger _ _ hthr
          (by rw [(fall_step_frame _ _).2.2.2.2.2,
                  (movement_step_frame _ _).2.2.2.1]
              exact hc)
          (by rw [fall_step_stats_mem, (movement_step_frame _ _).2.2.2.2.1,
                  dictMem_incr]
              exact hmem),
        fall_step_stats_getN _ _ _ (by decide) (by decide),
        (movement_step_frame _ _).2.2.2.2.1,
        dictGetN_incr_other _ _ _ (by decide)]

/-- Witness for the amended C1: a suppressed fall dispatch 5 s after the
previous one from the fresh engine, and the fall/violence statistics
increments on a triggering frame with the counter at 4. -/
theorem C1_cooldown_suppression_amended_witness :
    send_alert (initMonitor 0) "fall" 5 = (initMonitor 0, false) ∧
    dictGetN (process_frame
        { initMonitor 999 with fall_detections_count := 4 }
        (plainFrame 1000 1 0)).1.stats "fall_detections"
      = dictGetN { initMonitor 999 with
          fall_detections_count := 4 }.stats "fall_detections" + 1 ∧
    dictGetN (process_frame
        { initMonitor 999 with violence_detections_count := 4 }
        (plainFrame 1000 0 1)).1.stats "violence_detections"
      = dictGetN { initMonitor 999 with
          violence_detections_count := 4 }.stats "violence_detections"
        + 1 :=
  ⟨C1_cooldown_suppression_amended.1 (initMonitor 0) "fall" 5 (by decide),
   C1_cooldown_suppression_amended.2.1
     { initMonitor 999 with fall_detections_count := 4 }
     (plainFrame 1000 1 0) rfl (by decide) (by decide) (by decide),
   C1_cooldown_suppression_amended.2.2
     { initMonitor 999 with violence_detections_count := 4 }
     (plainFrame 1000 0 1) rfl (by decide) (by decide) (by decide)⟩

/-! ### Claim C2 -/

/-- Claim C2 fails on the code (code bug): from a fresh engine, a present
frame at t = 1000 dispatches the inactivity alert — the callback runs and
the last-dispatch time for "inactivity" is recorded — yet the
`inactivity_alerts` statistics counter stays 0, because `send_alert`'s
stats guard tests the alert kind "inactivity" for membership among the
stats keys (`total_frames`, `fall_detections`, `violence_detections`,
`inactivity_alerts`, `restroom_alerts`), none of which match, so the
increment of `alert_type ++ "_alerts"` is dead code. -/
theorem C2_stats_increment_dead_code :
    (process_frame (initMonitor 0)
      (plainFrame 1000 0 0)).2.inactivityDispatched = true ∧
    dictGetQ (process_frame (initMonitor 0)
      (plainFrame 1000 0 0)).1.last_alert_time "inactivity" 0 = 1000 ∧
    dictGetN (process_frame (initMonitor 0)
      (plainFrame 1000 0 0)).1.stats "inactivity_alerts" = 0 ∧
    dictMem (initMonitor 0).stats "inactivity" = false := by decide

/-! ### Claim C7 -/

/-- Counterexample to claim C7: the timestamps of `outOfOrderFrames` are
not monotone (the 5th frame's instant 90 precedes the 4th frame's 103),
yet the engine processes the 5th frame normally rather than rejecting it:
the state mutates (total_frames reaches 5) and a fall alert is dispatched
at the stale instant 90. -/
theorem C7_no_ordering_check_cex :
    ((outOfOrderFrames.get? 4).map FrameSignals.now = some 90 ∧
     (outOfOrderFrames.get? 3).map FrameSignals.now = some 103 ∧
     (90 : ℚ) < 103) ∧
    (run_frames (initMonitor 100) outOfOrderFrames).2.getLast? =
      some { noReport with fallTrigger := true, fallDispatched := true } ∧
    dictGetN (run_frames (initMonitor 100) outOfOrderFrames).1.stats
      "total_frames" = 5 ∧
    dictGetQ (run_frames (initMonitor 100)
      outOfOrderFrames).1.last_alert_time "fall" 0 = 90 := by decide

/-- Claim C7 amended: the engine performs no timestamp-ordering
validation at all — `process_frame` has no rejection path, and every
frame, whatever its instant relative to earlier frames, is processed and
mutates state (the total-frames statistic increments unconditionally). -/
theorem C7_no_ordering_validation_amended (m : Monitor) (f : FrameSignals)
    (hmem : dictMem m.stats "total_frames" = true) :
    dictGetN (process_frame m f).1.stats "total_frames"
      = dictGetN m.stats "total_frames" + 1 := by
  cases hp : f.present
  · rw [process_frame_absent m f hp]
    exact dictGetN_incr_same m.stats _ hmem
  · rw [process_frame_present m f hp]
    dsimp only
    rw [restroom_step_stats_getN _ _ _ (by decide),
        inactivity_step_stats_getN _ _ _ (by decide),
        violence_step_stats_getN _ _ _ (by decide) (by decide),
        fall_step_stats_getN _ _ _ (by decide) (by decide),
        (movement_step_frame _ _).2.2.2.2.1]
    exact dictGetN_incr_same m.stats _ hmem

/-- Witness for the amended C7: an out-of-order frame (instant 90 after
construction at instant 100) still increments the total-frames statistic
of the fresh engine. -/
theorem C7_no_ordering_validation_amended_witness :
    dictGetN (process_frame (initMonitor 100) (plainFrame 90 1 0)).1.stats
      "total_frames"
      = dictGetN (initMonitor 100).stats "total_frames" + 1 :=
  C7_no_ordering_validation_amended (initMonitor 100) (plainFrame 90 1 0)
    (by decide)

/-! ### Claim C8 -/

/-- Claim C8: on a subject-absent frame the total-frames statistic still
increments, but no alert of any kind is triggered or dispatched and every
other component of the engine state — fall/violence consecutive counters,
movement, inactivity and zone state, cooldown registry, other statistics —
is unchanged; in particular 100 consecutive absent frames from a fresh
engine produce all-empty reports, total_frames = 100, and an otherwise
untouched state. -/
theorem C8_no_subject_frames :
    (∀ (m : Monitor) (f : FrameSignals), f.present = false →
      (process_frame m f).1
          = { m with stats := dictIncr m.stats "total_frames" } ∧
      (process_frame m f).2 = noReport) ∧
    (dictGetN (run_frames (initMonitor 0)
        (List.replicate 100 (absentFrame 0))).1.stats "total_frames"
        = 100 ∧
     ((run_frames (initMonitor 0)
        (List.replicate 100 (absentFrame 0))).2.all (· = noReport))
        = true ∧
     (run_frames (initMonitor 0) (List.replicate 100 (absentFrame 0))).1
       = { initMonitor 0 with
           stats := [("total_frames", 100), ("fall_detections", 0),
                     ("violence_detections", 0), ("inactivity_alerts", 0),
                     ("restroom_alerts", 0)] }) := by
  constructor
  · intro m f h
    rw [process_frame_absent m f h]
    exact ⟨rfl, rfl⟩
  · exact ⟨by decide, by decide, by decide⟩

/-- Witness for C8: a subject-absent frame processed by the engine
constructed at t = 5 increments only the total-frames statistic and
reports no alert. -/
theorem C8_no_subject_frames_witness :
    (process_frame (initMonitor 5) (absentFrame 7)).1
        = { initMonitor 5 with
            stats := dictIncr (initMonitor 5).stats "total_frames" } ∧
    (process_frame (initMonitor 5) (absentFrame 7)).2 = noReport :=
  C8_no_subject_frames.1 (initMonitor 5) (absentFrame 7) rfl

/-! ### Claim C10 -/

/-- Claim C10: the previous-position record is never cleared by subject
absence (it survives any absent run); only a sighting with no recorded
position skips movement evaluation (inactivity clock untouched, position
then recorded); and on a present frame with a recorded position, a
displacement with squared magnitude above the noise floor counts as
movement even across an absence gap — the inactivity clock resets to the
frame instant and the one-shot flag clears. -/
theorem C10_position_survives_absence :
    (∀ (m : Monitor) (f : FrameSignals), f.present = false →
      (process_frame m f).1.last_position = m.last_position) ∧
    (∀ (m : Monitor) (fs : List FrameSignals),
      (∀ f ∈ fs, f.present = false) →
      (run_frames m fs).1.last_position = m.last_position) ∧
    (∀ (m : Monitor) (f : FrameSignals), f.present = true →
      m.last_position = none →
      (process_frame m f).1.last_movement_time = m.last_movement_time ∧
      (process_frame m f).1.last_position = some f.kp) ∧
    (∀ (m : Monitor) (f : FrameSignals) (p : List (ℚ × ℚ)),
      f.present = true → m.last_position = some p →
      25 < sumSqDiff f.kp p →
      (process_frame m f).1.last_movement_time = f.now ∧
      (process_frame m f).1.inactivity_alert_sent = false ∧
      (process_frame m f).1.last_position = some f.kp) := by
  refine ⟨?_, ?_, ?_, ?_⟩
  · intro m f h
    rw [process_frame_absent m f h]
  · intro m fs
    induction fs generalizing m with
    | nil => intro _; rfl
    | cons f fs ih =>
      intro hall
      have hf : f.present = false := hall f (List.mem_cons_self f fs)
      simp only [run_frames]
      rw [ih _ (fun g hg => hall g (List.mem_cons_of_mem f hg)),
          process_frame_absent m f hf]
  · intro m f hp h
    rw [process_frame_present m f hp]
    dsimp only
    rw [movement_step_none
          { m with stats := dictIncr m.stats "total_frames" } f h]
    constructor
    · rw [(restroom_step_frame _ _).1, (inactivity_step_frame _ _).1,
          (violence_step_frame _ _).1, (fall_step_frame _ _).1]
    · rw [(restroom_step_frame _ _).2.1, (inactivity_step_frame _ _).2.1,
          (violence_step_frame _ _).2.1, (fall_step_frame _ _).2.1]
  · intro m f p hp h hs
    exact ⟨(process_frame_moved m f p hp h hs).1,
           (process_frame_moved m f p hp h hs).2.1,
           (process_frame_moved m f p hp h hs).2.2.1⟩

/-- Witness for C10: an absent frame and a three-frame absent run leave a
recorded position untouched; a first sighting leaves the inactivity clock
alone; and a reappearance displaced by √200 from the pre-gap position
resets the clock and clears the one-shot flag. -/
theorem C10_position_survives_absence_witness :
    (process_frame (initMonitor 3) (absentFrame 4)).1.last_position
        = (initMonitor 3).last_position ∧
    (run_frames { initMonitor 0 with last_position := some [(1, 2)] }
        (List.replicate 3 (absentFrame 9))).1.last_position
        = some [(1, 2)] ∧
    ((process_frame (initMonitor 0)
        (plainFrame 8 1 0)).1.last_movement_time = 0 ∧
     (process_frame (initMonitor 0)
        (plainFrame 8 1 0)).1.last_position = some [(0, 0)]) ∧
    ((process_frame { initMonitor 0 with last_position := some [(10, 10)] }
        (plainFrame 50 0 0)).1.last_movement_time = 50 ∧
     (process_frame { initMonitor 0 with last_position := some [(10, 10)] }
        (plainFrame 50 0 0)).1.inactivity_alert_sent = false ∧
     (process_frame { initMonitor 0 with last_position := some [(10, 10)] }
        (plainFrame 50 0 0)).1.last_position = some [(0, 0)]) :=
  ⟨C10_position_survives_absence.1 (initMonitor 3) (absentFrame 4) rfl,
   C10_position_survives_absence.2.1
     { initMonitor 0 with last_position := some [(1, 2)] }
     (List.replicate 3 (absentFrame 9)) (by decide),
   C10_position_survives_absence.2.2.1 (initMonitor 0)
     (plainFrame 8 1 0) rfl rfl,
   C10_position_survives_absence.2.2.2
     { initMonitor 0 with last_position := some [(10, 10)] }
     (plainFrame 50 0 0) [(10, 10)] rfl rfl (by decide)⟩

/-! ### Claim C5 -/

/-- Claim C5: the inactivity alert is one-shot until movement resumes.
Once the one-shot flag is set, over any frame run on which the subject
never moves beyond the noise floor no inactivity dispatch is attempted
(however large the elapsed inactivity grows) and the flag stays set;
conversely, on any present frame whose displacement from the recorded
position exceeds the noise floor, the flag clears and the last-movement
time advances to the frame instant, re-arming the alert. -/
theorem C5_inactivity_one_shot :
    (∀ (m : Monitor) (fs : List FrameSignals),
      m.inactivity_alert_sent = true → stationaryRun m fs = true →
      (∀ r ∈ (run_frames m fs).2, r.inactivityTrigger = false) ∧
      (run_frames m fs).1.inactivity_alert_sent = true) ∧
    (∀ (m : Monitor) (f : FrameSignals) (p : List (ℚ × ℚ)),
      f.present = true → m.last_position = some p →
      25 < sumSqDiff f.kp p →
      (process_frame m f).1.inactivity_alert_sent = false ∧
      (process_frame m f).1.last_movement_time = f.now) := by
  constructor
  · intro m fs
    induction fs generalizing m with
    | nil =>
      intro hsent _
      refine ⟨?_, hsent⟩
      intro r hr
      cases hr
    | cons f fs ih =>
      intro hsent hrun
      rw [stationaryRun, Bool.and_eq_true] at hrun
      have hstep := process_frame_sent_still m f hsent hrun.1
      have hrest := ih (process_frame m f).1 hstep.2 hrun.2
      constructor
      · intro r hr
        simp only [run_frames, List.mem_cons] at hr
        rcases hr with hr | hr
        · rw [hr]; exact hstep.1
        · exact hrest.1 r hr
      · simp only [run_frames]
        exact hrest.2
  · intro m f p hp h hs
    exact ⟨(process_frame_moved m f p hp h hs).2.1,
           (process_frame_moved m f p hp h hs).1⟩

/-- Witness for C5: with the flag set and the subject holding still at
the origin for two frames 1000 s apart, no inactivity dispatch is
attempted and the flag stays set; a later jump to (10, 10) clears the
flag and advances the last-movement time. -/
theorem C5_inactivity_one_shot_witness :
    ((∀ r ∈ (run_frames
        { initMonitor 0 with inactivity_alert_sent := true,
                             last_position := some [(0, 0)] }
        [plainFrame 1000 0 0, plainFrame 2000 0 0]).2,
        r.inactivityTrigger = false) ∧
     (run_frames
        { initMonitor 0 with inactivity_alert_sent := true,
                             last_position := some [(0, 0)] }
        [plainFrame 1000 0 0, plainFrame 2000 0 0]).1.inactivity_alert_sent
        = true) ∧
    ((process_frame
        { initMonitor 0 with inactivity_alert_sent := true,
                             last_position := some [(10, 10)] }
        (plainFrame 3000 0 0)).1.inactivity_alert_sent = false ∧
     (process_frame
        { initMonitor 0 with inactivity_alert_sent := true,
                             last_position := some [(10, 10)] }
        (plainFrame 3000 0 0)).1.last_movement_time = 3000) :=
  ⟨C5_inactivity_one_shot.1
     { initMonitor 0 with inactivity_alert_sent := true,
                          last_position := some [(0, 0)] }
     [plainFrame 1000 0 0, plainFrame 2000 0 0]
     rfl (by decide),
   C5_inactivity_one_shot.2
     { initMonitor 0 with inactivity_alert_sent := true,
                          last_position := some [(10, 10)] }
     (plainFrame 3000 0 0) [(10, 10)] rfl rfl (by decide)⟩

/-! ### Claim C6 -/

/-- Claim C6: the cooldown registry `send_alert` guarantees per-kind
spacing.  For two dispatch attempts of the same kind, the first of which
is cooldown-eligible: if the second comes less than `alert_cooldown`
(10 s) after the first, exactly the first dispatches; if it comes more
than `alert_cooldown` after, both dispatch.  Moreover every actual
dispatch happens at least `alert_cooldown` after the recorded previous
dispatch of that kind, and records its own instant, so two dispatches of
the same kind are never less than `alert_cooldown` apart. -/
theorem C6_cooldown_spacing :
    (∀ (m : Monitor) (k : String) (t1 t2 : ℚ),
      alert_cooldown ≤ t1 - dictGetQ m.last_alert_time k 0 →
      (send_alert m k t1).2 = true ∧
      (t2 - t1 < alert_cooldown →
        (send_alert (send_alert m k t1).1 k t2).2 = false) ∧
      (alert_cooldown < t2 - t1 →
        (send_alert (send_alert m k t1).1 k t2).2 = true)) ∧
    (∀ (m : Monitor) (k : String) (t : ℚ),
      (send_alert m k t).2 = true →
      alert_cooldown ≤ t - dictGetQ m.last_alert_time k 0 ∧
      dictGetQ (send_alert m k t).1.last_alert_time k 0 = t) := by
  constructor
  · intro m k t1 t2 h1
    have hs1 := send_alert_passed m k t1 (not_lt.mpr h1)
    have hlast : dictGetQ (send_alert m k t1).1.last_alert_time k 0 = t1 := by
      rw [hs1]; exact dictGetQ_set_same m.last_alert_time k t1 0
    refine ⟨by rw [hs1], ?_, ?_⟩
    · intro h2
      exact congrArg Prod.snd (send_alert_suppressed (send_alert m k t1).1
        k t2 (by rw [hlast]; exact h2))
    · intro h2
      exact congrArg Prod.snd (send_alert_passed (send_alert m k t1).1
        k t2 (by rw [hlast]; exact not_lt.mpr (le_of_lt h2)))
  · intro m k t h
    by_cases hc : t - dictGetQ m.last_alert_time k 0 < alert_cooldown
    · rw [send_alert_suppressed m k t hc] at h
      cases h
    · exact ⟨not_lt.mp hc, send_alert_last_same m k t h 0⟩

/-- Witness for C6: from the fresh engine, a fall dispatch at t = 50
dispatches; a second attempt at t = 55 (5 s later) is suppressed while
one at t = 61 (11 s later) dispatches; and the t = 50 dispatch was
cooldown-eligible and recorded its instant. -/
theorem C6_cooldown_spacing_witness :
    (send_alert (initMonitor 0) "fall" 50).2 = true ∧
    (send_alert (send_alert (initMonitor 0) "fall" 50).1 "fall" 55).2
      = false ∧
    (send_alert (send_alert (initMonitor 0) "fall" 50).1 "fall" 61).2
      = true ∧
    (alert_cooldown ≤ 50 - dictGetQ (initMonitor 0).last_alert_time
        "fall" 0 ∧
     dictGetQ (send_alert (initMonitor 0) "fall" 50).1.last_alert_time
        "fall" 0 = 50) :=
  ⟨(C6_cooldown_spacing.1 (initMonitor 0) "fall" 50 55 (by decide)).1,
   (C6_cooldown_spacing.1 (initMonitor 0) "fall" 50 55 (by decide)).2.1
     (by decide),
   (C6_cooldown_spacing.1 (initMonitor 0) "fall" 50 61 (by decide)).2.2
     (by decide),
   C6_cooldown_spacing.2 (initMonitor 0) "fall" 50
     ((C6_cooldown_spacing.1 (initMonitor 0) "fall" 50 55 (by decide)).1)⟩

/-! ### Claim C9 -/

/-- The zone invariant holds after construction. -/
theorem zoneInv_init (t0 : ℚ) : zoneInv (initMonitor t0) := rfl

/-- The restroom block preserves the zone invariant. -/
theorem zoneInv_restroom_step (m : Monitor) (f : FrameSignals)
    (h : zoneInv m) : zoneInv (restroom_step m f).1 := by
  unfold restroom_step
  split
  · dsimp only
    split
    · split
      · unfold zoneInv at h ⊢
        dsimp only
        rw [(send_alert_frame _ _ _).2.2.2.1]
        simpa using h.symm ▸ (by assumption : m.in_restroom_zone = true)
      · exact h
    · split
      · unfold zoneInv
        dsimp only
        rw [(send_alert_frame _ _ _).2.2.2.1]
        rfl
      · unfold zoneInv
        dsimp only
        rfl
  · unfold zoneInv
    rfl

/-- One processed frame preserves the zone invariant. -/
theorem zoneInv_step (m : Monitor) (f : FrameSignals) (h : zoneInv m) :
    zoneInv (process_frame m f).1 := by
  cases hp : f.present
  · rw [process_frame_absent m f hp]
    exact h
  · rw [process_frame_present m f hp]
    dsimp only
    apply zoneInv_restroom_step
    unfold zoneInv
    rw [(inactivity_step_frame _ _).2.2.2.1,
        (violence_step_frame _ _).2.2.2.2.1,
        (fall_step_frame _ _).2.2.2.2.1, (movement_step_frame _ _).2.1,
        (inactivity_step_frame _ _).2.2.1,
        (violence_step_frame _ _).2.2.2.1, (fall_step_frame _ _).2.2.2.1,
        (movement_step_frame _ _).1]
    exact h

/-- Claim C9: the zone-state invariant `entry_time.is_some() == occupied`
holds after engine construction and is preserved by every processed
frame; and under the invariant, the entry time becomes non-null exactly
on the false→true transition of zone occupancy (so, symmetrically, it is
cleared exactly on the true→false transition). -/
theorem C9_zone_state_invariant :
    (∀ t0 : ℚ, zoneInv (initMonitor t0)) ∧
    (∀ (m : Monitor) (f : FrameSignals), zoneInv m →
      zoneInv (process_frame m f).1) ∧
    (∀ (m : Monitor) (f : FrameSignals), zoneInv m →
      ((m.in_restroom_zone = false ∧
        (process_frame m f).1.in_restroom_zone = true) ↔
       (m.restroom_entry_time = none ∧
        (process_frame m f).1.restroom_entry_time.isSome = true))) := by
  refine ⟨zoneInv_init, zoneInv_step, ?_⟩
  intro m f h
  have h' := zoneInv_step m f h
  unfold zoneInv at h h'
  constructor
  · rintro ⟨hz, hz'⟩
    refine ⟨?_, ?_⟩
    · rw [hz] at h
      exact Option.not_isSome_iff_eq_none.mp (by rw [h]; simp)
    · rw [h', hz']
  · rintro ⟨he, he'⟩
    refine ⟨?_, ?_⟩
    · rw [← h, he]
      rfl
    · rw [← h', he']

/-- Witness for C9: the invariant after construction at t = 0, after one
in-zone frame at t = 5, and the transition equivalence on that frame. -/
theorem C9_zone_state_invariant_witness :
    zoneInv (initMonitor 0) ∧
    zoneInv (process_frame (initMonitor 0) (zoneFrame 5)).1 ∧
    (((initMonitor 0).in_restroom_zone = false ∧
      (process_frame (initMonitor 0) (zoneFrame 5)).1.in_restroom_zone
        = true) ↔
     ((initMonitor 0).restroom_entry_time = none ∧
      (process_frame (initMonitor 0)
        (zoneFrame 5)).1.restroom_entry_time.isSome = true)) :=
  ⟨C9_zone_state_invariant.1 0,
   C9_zone_state_invariant.2.1 (initMonitor 0) (zoneFrame 5) rfl,
   C9_zone_state_invariant.2.2 (initMonitor 0) (zoneFrame 5) rfl⟩

/-! ### Claim C4 -/

/-- `process_frame` on a present frame is the restroom block applied to
the state left by the earlier blocks (`preZone`). -/
theorem process_frame_zone_parts (m : Monitor) (f : FrameSignals)
    (h : f.present = true) :
    (process_frame m f).1 = (restroom_step (preZone m f) f).1 ∧
    (process_frame m f).2.restroomTrigger
      = (restroom_step (preZone m f) f).2.1 ∧
    (process_frame m f).2.restroomDispatched
      = (restroom_step (preZone m f) f).2.2 := by
  rw [process_frame_present m f h]
  exact ⟨rfl, rfl, rfl⟩

/-- The blocks before the restroom block leave the zone occupancy flag,
the zone entry time and the recorded last restroom dispatch unchanged. -/
theorem preZone_facts (m : Monitor) (f : FrameSignals) :
    (preZone m f).in_restroom_zone = m.in_restroom_zone ∧
    (preZone m f).restroom_entry_time = m.restroom_entry_time ∧
    dictGetQ (preZone m f).last_alert_time "restroom" 0
      = dictGetQ m.last_alert_time "restroom" 0 := by
  unfold preZone
  refine ⟨?_, ?_, ?_⟩
  · rw [(inactivity_step_frame _ _).2.2.1,
        (violence_step_frame _ _).2.2.2.1,
        (fall_step_frame _ _).2.2.2.1, (movement_step_frame _ _).1]
  · rw [(inactivity_step_frame _ _).2.2.2.1,
        (violence_step_frame _ _).2.2.2.2.1,
        (fall_step_frame _ _).2.2.2.2.1, (movement_step_frame _ _).2.1]
  · rw [inactivity_step_last_other _ _ _ (by decide) 0,
        violence_step_last_other _ _ _ (by decide) 0,
        fall_step_last_other _ _ _ (by decide) 0,
        (movement_step_frame _ _).2.2.2.2.2.1]

/-- Restroom block, dwell-exceeded case: with the subject in the zone,
the zone occupied since instant `e`, more than `RESTROOM_THRESHOLD`
elapsed, and the previous restroom dispatch not after `e` (the reachable
states), the block attempts the zone alert, the attempt passes the
cooldown, and the entry time is reset to `now` (not cleared). -/
theorem restroom_step_fire (m : Monitor) (f : FrameSignals) (e : ℚ)
    (hzone : (zone_start f.width : ℚ) < f.centerX)
    (hocc : m.in_restroom_zone = true)
    (hentry : m.restroom_entry_time = some e)
    (hdwell : RESTROOM_THRESHOLD < f.now - e)
    (hlast : dictGetQ m.last_alert_time "restroom" 0 ≤ e) :
    (restroom_step m f).2.1 = true ∧
    (restroom_step m f).2.2 = true ∧
    (restroom_step m f).1.restroom_entry_time = some f.now ∧
    (restroom_step m f).1.in_restroom_zone = true := by
  have hcool :
      ¬ f.now - dictGetQ m.last_alert_time "restroom" 0 < alert_cooldown := by
    unfold RESTROOM_THRESHOLD at hdwell
    unfold alert_cooldown
    push_neg
    linarith
  have hs := send_alert_passed m "restroom" f.now hcool
  unfold restroom_step
  rw [if_pos hzone]
  dsimp only
  rw [if_pos hocc, hentry]
  simp only [Option.getD_some]
  rw [if_pos hdwell, hs]
  exact ⟨rfl, rfl, rfl, hocc⟩

/-- Restroom block, dwell-not-exceeded case: in the zone and occupied
but within the dwell threshold, the block does nothing. -/
theorem restroom_step_hold (m : Monitor) (f : FrameSignals) (e : ℚ)
    (hzone : (zone_start f.width : ℚ) < f.centerX)
    (hocc : m.in_restroom_zone = true)
    (hentry : m.restroom_entry_time = some e)
    (hdwell : ¬ RESTROOM_THRESHOLD < f.now - e) :
    restroom_step m f = (m, false, false) := by
  unfold restroom_step
  rw [if_pos hzone]
  dsimp only
  rw [if_pos hocc, hentry]
  simp only [Option.getD_some]
  rw [if_neg hdwell]

/-- Restroom block, entry case: in the zone but not yet occupied, the
block marks the zone occupied and starts the dwell clock at `now` — with
zero elapsed dwell, so no alert this frame, and no credit for any prior
dwell. -/
theorem restroom_step_enter (m : Monitor) (f : FrameSignals)
    (hzone : (zone_start f.width : ℚ) < f.centerX)
    (hocc : m.in_restroom_zone = false) :
    restroom_step m f =
      ({ m with in_restroom_zone := true,
                restroom_entry_time := some f.now }, false, false) := by
  unfold restroom_step
  rw [if_pos hzone]
  dsimp only
  rw [hocc, if_neg Bool.false_ne_true]
  dsimp only
  simp only [Option.getD_some]
  rw [if_neg (by rw [sub_self]; decide)]

/-- Restroom block, exit case: subject outside the zone boundary clears
occupancy and the entry time. -/
theorem restroom_step_exit (m : Monitor) (f : FrameSignals)
    (hzone : ¬ (zone_start f.width : ℚ) < f.centerX) :
    restroom_step m f =
      ({ m with in_restroom_zone := false,
                restroom_entry_time := none }, false, false) := by
  unfold restroom_step
  rw [if_neg hzone]

/-- The restroom block preserves the restroom bookkeeping invariant. -/
theorem restroom_step_inv (m : Monitor) (f : FrameSignals) (t : ℚ)
    (hinv : RestroomInv m t) (hle : t ≤ f.now) :
    RestroomInv (restroom_step m f).1 f.now := by
  obtain ⟨hl, he⟩ := hinv
  have hlnow : dictGetQ m.last_alert_time "restroom" 0 ≤ f.now :=
    le_trans hl hle
  unfold restroom_step
  split
  · dsimp only
    split
    · -- already occupied
      split
      · -- dispatch attempt, entry reset to now
        by_cases hc : f.now - dictGetQ m.last_alert_time "restroom" 0
            < alert_cooldown
        · rw [send_alert_suppressed m "restroom" f.now hc]
          refine ⟨hlnow, ?_⟩
          intro e' he'
          obtain rfl : f.now = e' := Option.some.inj he'
          exact ⟨hlnow, le_refl _⟩
        · rw [send_alert_passed m "restroom" f.now hc]
          refine ⟨?_, ?_⟩
          · dsimp only
            rw [dictGetQ_set_same]
          · intro e' he'
            obtain rfl : f.now = e' := Option.some.inj he'
            dsimp only
            rw [dictGetQ_set_same]
            exact ⟨le_refl _, le_refl _⟩
      · -- within dwell threshold: unchanged
        refine ⟨hlnow, ?_⟩
        intro e' he'
        exact ⟨(he e' he').1, le_trans (he e' he').2 hle⟩
    · -- just entered
      split
      · by_cases hc : f.now - dictGetQ m.last_alert_time "restroom" 0
            < alert_cooldown
        · rw [send_alert_suppressed
            { m with in_restroom_zone := true,
                     restroom_entry_time := some f.now } "restroom"
            f.now hc]
          refine ⟨hlnow, ?_⟩
          intro e' he'
          obtain rfl : f.now = e' := Option.some.inj he'
          exact ⟨hlnow, le_refl _⟩
        · rw [send_alert_passed
            { m with in_restroom_zone := true,
                     restroom_entry_time := some f.now } "restroom"
            f.now hc]
          refine ⟨?_, ?_⟩
          · dsimp only
            rw [dictGetQ_set_same]
          · intro e' he'
            obtain rfl : f.now = e' := Option.some.inj he'
            dsimp only
            rw [dictGetQ_set_same]
            exact ⟨le_refl _, le_refl _⟩
      · refine ⟨hlnow, ?_⟩
        intro e' he'
        obtain rfl : f.now = e' := Option.some.inj he'
        exact ⟨hlnow, le_refl _⟩
  · -- outside the zone
    refine ⟨hlnow, ?_⟩
    intro e' he'
    cases he'

/-- One processed frame preserves the restroom bookkeeping invariant. -/
theorem RestroomInv_step (m : Monitor) (f : FrameSignals) (t : ℚ)
    (hinv : RestroomInv m t) (hle : t ≤ f.now) :
    RestroomInv (process_frame m f).1 f.now := by
  cases hp : f.present
  · rw [process_frame_absent m f hp]
    obtain ⟨hl, he⟩ := hinv
    exact ⟨le_trans hl hle,
           fun e' he' => ⟨(he e' he').1, le_trans (he e' he').2 hle⟩⟩
  · have hzp := (process_frame_zone_parts m f hp).1
    rw [hzp]
    apply restroom_step_inv _ _ t _ hle
    obtain ⟨hl, he⟩ := hinv
    obtain ⟨hz1, hz2, hz3⟩ := preZone_facts m f
    constructor
    · rw [hz3]; exact hl
    · intro e' he'
      rw [hz2] at he'
      rw [hz3]
      exact he e' he'

/-- Claim C4: zone dwell is repeat-at-interval.  When the subject is in
the zone (present, center x beyond the boundary) and the zone has been
occupied since instant `e` with more than the 20 s dwell threshold
elapsed, the zone alert is dispatched (the attempt always survives the
10 s cooldown, since in every reachable state the previous restroom
dispatch is not after the entry instant) and the entry time is reset to
`now` — not cleared — so the alert re-fires after each further threshold
interval; within the threshold nothing fires and the entry time keeps its
value; entering the zone from outside starts the clock at `now` with no
credit for prior dwell; leaving the zone clears occupancy and the entry
time; and the bookkeeping invariant backing the cooldown argument holds
at construction (at any nonnegative instant) and is preserved by every
processed frame with nondecreasing timestamps. -/
theorem C4_zone_dwell_repeat :
    (∀ (m : Monitor) (f : FrameSignals) (e : ℚ), f.present = true →
      (zone_start f.width : ℚ) < f.centerX →
      m.in_restroom_zone = true →
      m.restroom_entry_time = some e →
      RESTROOM_THRESHOLD < f.now - e →
      dictGetQ m.last_alert_time "restroom" 0 ≤ e →
      (process_frame m f).2.restroomTrigger = true ∧
      (process_frame m f).2.restroomDispatched = true ∧
      (process_frame m f).1.restroom_entry_time = some f.now ∧
      (process_frame m f).1.in_restroom_zone = true) ∧
    (∀ (m : Monitor) (f : FrameSignals) (e : ℚ), f.present = true →
      (zone_start f.width : ℚ) < f.centerX →
      m.in_restroom_zone = true →
      m.restroom_entry_time = some e →
      ¬ RESTROOM_THRESHOLD < f.now - e →
      (process_frame m f).2.restroomTrigger = false ∧
      (process_frame m f).1.restroom_entry_time = some e ∧
      (process_frame m f).1.in_restroom_zone = true) ∧
    (∀ (m : Monitor) (f : FrameSignals), f.present = true →
      (zone_start f.width : ℚ) < f.centerX →
      m.in_restroom_zone = false →
      (process_frame m f).2.restroomTrigger = false ∧
      (process_frame m f).1.restroom_entry_time = some f.now ∧
      (process_frame m f).1.in_restroom_zone = true) ∧
    (∀ (m : Monitor) (f : FrameSignals), f.present = true →
      ¬ (zone_start f.width : ℚ) < f.centerX →
      (process_frame m f).2.restroomTrigger = false ∧
      (process_frame m f).1.restroom_entry_time = none ∧
      (process_frame m f).1.in_restroom_zone = false) ∧
    (∀ t0 : ℚ, 0 ≤ t0 → RestroomInv (initMonitor t0) t0) ∧
    (∀ (m : Monitor) (f : FrameSignals) (t : ℚ),
      RestroomInv m t → t ≤ f.now →
      RestroomInv (process_frame m f).1 f.now) := by
  refine ⟨?_, ?_, ?_, ?_, ?_, RestroomInv_step⟩
  · intro m f e hp hz hocc hentry hdwell hlast
    obtain ⟨hzp1, hzp2, hzp3⟩ := process_frame_zone_parts m f hp
    obtain ⟨hz1, hz2, hz3⟩ := preZone_facts m f
    have h1 := restroom_step_fire (preZone m f) f e hz
      (by rw [hz1]; exact hocc) (by rw [hz2]; exact hentry) hdwell
      (by rw [hz3]; exact hlast)
    exact ⟨by rw [hzp2]; exact h1.1, by rw [hzp3]; exact h1.2.1,
           by rw [hzp1]; exact h1.2.2.1, by rw [hzp1]; exact h1.2.2.2⟩
  · intro m f e hp hz hocc hentry hdwell
    obtain ⟨hzp1, hzp2, hzp3⟩ := process_frame_zone_parts m f hp
    obtain ⟨hz1, hz2, hz3⟩ := preZone_facts m f
    have h1 := restroom_step_hold (preZone m f) f e hz
      (by rw [hz1]; exact hocc) (by rw [hz2]; exact hentry) hdwell
    refine ⟨by rw [hzp2, h1], ?_, ?_⟩
    · rw [hzp1, h1]
      dsimp only
      rw [hz2]
      exact hentry
    · rw [hzp1, h1]
      dsimp only
      rw [hz1]
      exact hocc
  · intro m f hp hz hocc
    obtain ⟨hzp1, hzp2, hzp3⟩ := process_frame_zone_parts m f hp
    obtain ⟨hz1, hz2, hz3⟩ := preZone_facts m f
    have h1 := restroom_step_enter (preZone m f) f hz
      (by rw [hz1]; exact hocc)
    exact ⟨by rw [hzp2, h1], by rw [hzp1, h1], by rw [hzp1, h1]⟩
  · intro m f hp hz
    obtain ⟨hzp1, hzp2, hzp3⟩ := process_frame_zone_parts m f hp
    have h1 := restroom_step_exit (preZone m f) f hz
    exact ⟨by rw [hzp2, h1], by rw [hzp1, h1], by rw [hzp1, h1]⟩
  · intro t0 h0
    exact ⟨h0, fun e he => by cases he⟩

/-- Witness for C4: with the zone occupied since t = 5 from a fresh
engine, a frame at t = 30 (dwell 25 s > 20 s) fires and resets the entry
time to 30, a frame at t = 20 (dwell 15 s) holds it; a fresh engine
entering at t = 7 starts the clock there without firing; a non-zone frame
exits; and the invariant holds at construction and after one frame. -/
theorem C4_zone_dwell_repeat_witness :
    ((process_frame (occupiedMonitor 5) (zoneFrame 30)).2.restroomTrigger
        = true ∧
     (process_frame (occupiedMonitor 5) (zoneFrame 30)).2.restroomDispatched
        = true ∧
     (process_frame (occupiedMonitor 5) (zoneFrame 30)).1.restroom_entry_time
        = some 30 ∧
     (process_frame (occupiedMonitor 5) (zoneFrame 30)).1.in_restroom_zone
        = true) ∧
    ((process_frame (occupiedMonitor 5) (zoneFrame 20)).2.restroomTrigger
        = false ∧
     (process_frame (occupiedMonitor 5) (zoneFrame 20)).1.restroom_entry_time
        = some 5 ∧
     (process_frame (occupiedMonitor 5) (zoneFrame 20)).1.in_restroom_zone
        = true) ∧
    ((process_frame (initMonitor 0) (zoneFrame 7)).2.restroomTrigger
        = false ∧
     (process_frame (initMonitor 0) (zoneFrame 7)).1.restroom_entry_time
        = some 7 ∧
     (process_frame (initMonitor 0) (zoneFrame 7)).1.in_restroom_zone
        = true) ∧
    ((process_frame (occupiedMonitor 3) (plainFrame 9 0 0)).2.restroomTrigger
        = false ∧
     (process_frame (occupiedMonitor 3)
        (plainFrame 9 0 0)).1.restroom_entry_time = none ∧
     (process_frame (occupiedMonitor 3) (plainFrame 9 0 0)).1.in_restroom_zone
        = false) ∧
    RestroomInv (initMonitor 0) 0 ∧
    RestroomInv (process_frame (initMonitor 0) (zoneFrame 4)).1 4 :=
  ⟨C4_zone_dwell_repeat.1 (occupiedMonitor 5) (zoneFrame 30) 5 rfl
     (by decide) rfl rfl (by decide) (by decide),
   C4_zone_dwell_repeat.2.1 (occupiedMonitor 5) (zoneFrame 20) 5 rfl
     (by decide) rfl rfl (by decide),
   C4_zone_dwell_repeat.2.2.1 (initMonitor 0) (zoneFrame 7) rfl
     (by decide) rfl,
   C4_zone_dwell_repeat.2.2.2.1 (occupiedMonitor 3) (plainFrame 9 0 0)
     rfl (by decide),
   C4_zone_dwell_repeat.2.2.2.2.1 0 (by decide),
   C4_zone_dwell_repeat.2.2.2.2.2 (initMonitor 0) (zoneFrame 4) 0
     (C4_zone_dwell_repeat.2.2.2.2.1 0 (by decide)) (by decide)⟩

end BehaviorLens
